import Mathlib

/-!
Shallow embedding of the auto-tester run pipeline:
the step executor (packages/runner/src/index.ts), the heuristic test
synthesizer (the generator package), the crawler fallback policy
(packages/crawler/src/index.ts) and the orchestrator generate phase
(apps/web/app/api/internal/orchestrator.ts).

Conventions of the embedding:
* TypeScript string unions (actions, statuses, priorities, tags) are plain
  Lean String values.
* Optional TS fields are Option values; JS truthiness on strings is an
  explicit emptiness test.
* nanoid id generation is abstracted as a fresh-id supply (Nat to String):
  the k-th test pushed receives the k-th generated id.
* Browser, filesystem and network effects (Playwright calls, screenshots,
  timestamps, fetch) are abstracted as oracle functions carried by a
  Browser record; screenshots and result-file writes are modelled as
  always succeeding, since the claims under study do not concern them.
* Fallible code is Except String, mirroring thrown Error messages.
-/

/-! ### JS string primitives, modelled over character lists -/

/-- begB p s is true when p is a leading segment of s (JS startsWith at the
character-list level). -/
def begB : List Char → List Char → Bool
  | [], _ => true
  | _ :: _, [] => false
  | a :: as, b :: bs => a == b && begB as bs

/-- hasSubB p s is true when p occurs contiguously inside s (JS includes at
the character-list level). -/
def hasSubB : List Char → List Char → Bool
  | p, [] => p.isEmpty
  | p, c :: t => begB p (c :: t) || hasSubB p t

/-- JS s.startsWith(p). -/
def startsWithB (s p : String) : Bool := begB p.data s.data

/-- JS s.includes(sub). -/
def includesB (s sub : String) : Bool := hasSubB sub.data s.data

/-- JS s.slice(n) / s.substring(n). -/
def dropS (s : String) (n : Nat) : String := String.mk (s.data.drop n)

/-- JS s.trim(): strip whitespace from both ends. -/
def jsTrim (s : String) : String :=
  String.mk (((s.data.dropWhile Char.isWhitespace).reverse.dropWhile Char.isWhitespace).reverse)

/-- JS s.toLowerCase() (ASCII-adequate). -/
def jsLower (s : String) : String := String.mk (s.data.map Char.toLower)

/-- JS a || b on strings: first operand unless it is empty (falsy). -/
def orS (a b : String) : String := if a = "" then b else a

/-- JS truthiness filter on an optional string: some "" collapses to none. -/
def truthyOptS : Option String → Option String
  | none => none
  | some s => if s = "" then none else some s

/-- Case-insensitive alternation regex test: true when some word of ws
(given lowercase) occurs in s. Models /w1|w2|.../i.test(s). -/
def anySub (s : String) (ws : List String) : Bool :=
  ws.any (fun w => hasSubB w.data (jsLower s).data)

/-! ### Data model (packages/core types, as used by the pipeline) -/

/-- One interactive DOM node discovered by the crawler. -/
structure PageElement where
  id : String
  tag : String
  text : Option String := none
  role : Option String := none
  attributes : List (String × String) := []
  locatorCandidates : List String := []
  inferredType : Option String := none
  containerFormId : Option String := none
  frameUrl : Option String := none
  deriving DecidableEq

/-- One discovered page. -/
structure PageModel where
  id : String
  url : String
  title : Option String := none
  typeHints : List String := []
  elements : List PageElement := []
  deriving DecidableEq

/-- One action of a test. -/
structure TestStep where
  description : String
  action : String
  targetElementId : Option String := none
  inputData : Option String := none
  expected : Option String := none
  deriving DecidableEq

/-- One synthesized test case. -/
structure TestSpec where
  id : String
  name : String
  requirementRefs : List String := []
  pageModelId : String
  priority : String
  negative : Bool := false
  tags : List String := []
  steps : List TestStep := []
  deriving DecidableEq

/-- Outcome of one executed step (timestamps and screenshot paths are
effects, not modelled). -/
structure StepResult where
  stepIndex : Nat
  status : String
  error : Option String := none
  deriving DecidableEq

/-- Outcome of one executed test. -/
structure RunResult where
  testId : String
  status : String
  stepResults : List StepResult
  deriving DecidableEq

/-- Crawler output (timestamps omitted). -/
structure CrawlResult where
  pages : List PageModel := []
  warnings : List String := []
  deriving DecidableEq

/-- Uploaded asset descriptor used by the orchestrator. -/
structure Asset where
  id : String := ""
  name : String := ""
  mime : String := ""
  kind : String := "other"
  path : String := ""
  deriving DecidableEq

/-- Caller-supplied credentials. -/
structure Credentials where
  username : String
  password : String
  deriving DecidableEq

/-- JS e.attributes[k] with undefined collapsed to the empty default. -/
def attrD (e : PageElement) (k : String) : String :=
  (e.attributes.lookup k).getD ""

/-- JS e.attributes[k] as an optional value (undefined = none). -/
def attrOpt (e : PageElement) (k : String) : Option String :=
  e.attributes.lookup k

/-! ### Step executor (packages/runner/src/index.ts) -/

/-- Locator handle produced by locatorFor, naming the Playwright
resolution primitive that would be used. -/
inductive Locator where
  | byText (t : String) (exact : Bool)
  | css (sel : String)
  | byLabel (l : String)
  | byRole (r : String)
  deriving DecidableEq

/-- Oracle record abstracting the live browser: the current main-frame URL,
the set of frame URLs, and the outcome of every effectful Playwright call
the runner makes. -/
structure Browser where
  url : String
  frameUrls : List String := []
  actUpload : Locator → String → Except String Unit := fun _ _ => .ok ()
  actFill : Locator → String → Except String Unit := fun _ _ => .ok ()
  actClick : Locator → Except String Unit := fun _ => .ok ()
  actEvalSelect : Locator → Except String String := fun _ => .ok ""
  actSelectValue : Locator → String → Except String Unit := fun _ _ => .ok ()
  actSelectLabel : Locator → String → Except String Unit := fun _ _ => .ok ()
  actWaitText : String → Except String Unit := fun _ => .ok ()
  actWaitVisible : Locator → Except String Unit := fun _ => .ok ()
  actWaitHidden : Locator → Except String Unit := fun _ => .ok ()
  actIsChecked : Locator → Option Bool := fun _ => some true

/-- Loop over locatorCandidates: text= prefix gives an exact getByText,
a leading # or [ gives a CSS locator, anything else is skipped. -/
def pickCandidate : List String → Option Locator
  | [] => none
  | c :: rest =>
    if startsWithB c "text=" then some (.byText (dropS c 5) true)
    else if startsWithB c "#" || startsWithB c "[" then some (.css c)
    else pickCandidate rest

/-- locatorFor: candidates in stored order, then aria-label, role, visible
text, else the explicit no-valid-locator error. -/
def locatorFor (el : PageElement) : Except String Locator :=
  match pickCandidate el.locatorCandidates with
  | some loc => .ok loc
  | none =>
    if attrD el "aria-label" ≠ "" then .ok (.byLabel (attrD el "aria-label"))
    else if (el.role.getD "") ≠ "" then .ok (.byRole (el.role.getD ""))
    else if (el.text.getD "") ≠ "" then .ok (.byText (el.text.getD "") false)
    else .error "No valid locator"

/-- Target element resolution at the top of performStep: a falsy (absent
or empty) targetElementId yields no element, otherwise the first model
element with that id. -/
def resolveTarget (step : TestStep) (model : PageModel) : Option PageElement :=
  match step.targetElementId with
  | none => none
  | some tid => if tid = "" then none else model.elements.find? (fun e => e.id = tid)

/-- The frame key passed to frameFor: the data-frame-url attribute when
truthy, else the element's frameUrl field. -/
def frameKey (el : Option PageElement) : Option String :=
  match el with
  | none => none
  | some e =>
    match attrOpt e "data-frame-url" with
    | some s => if s ≠ "" then some s else e.frameUrl
    | none => e.frameUrl

/-- frameFor plus ctx.url(): the matching frame's URL when one exists,
else the main page URL. -/
def ctxUrl (br : Browser) (el : Option PageElement) : String :=
  match frameKey el with
  | none => br.url
  | some u => if u = "" then br.url else if br.frameUrls.contains u then u else br.url

/-- The URL the assert-url branch compares against, for a given step. -/
def resolvedUrl (br : Browser) (step : TestStep) (model : PageModel) : String :=
  ctxUrl br (resolveTarget step model)

/-- The select branch after the locator resolves: explicit inputData if
truthy, else the in-page evaluation picking the first enabled non-default
option; a truthy value is then selected with all selection errors
swallowed by the catch chain. -/
def doSelect (br : Browser) (loc : Locator) (inputData : Option String) : Except String Unit :=
  match (match inputData with
         | some s => if s ≠ "" then Except.ok s else br.actEvalSelect loc
         | none => br.actEvalSelect loc) with
  | .error m => .error m
  | .ok value =>
    if value ≠ "" then
      match br.actSelectValue loc value with
      | .ok _ => .ok ()
      | .error _ =>
        match br.actSelectLabel loc value with
        | _ => .ok ()
    else .ok ()

/-- performStep: dispatch over the action name, mirroring the runner's
switch statement arm by arm. -/
def performStep (br : Browser) (step : TestStep) (model : PageModel) : Except String Unit :=
  let el := resolveTarget step model
  let u := resolvedUrl br step model
  if step.action = "upload" then
    match el with
    | none => .error "No target element for upload"
    | some e =>
      match locatorFor e with
      | .error m => .error m
      | .ok loc =>
        let filePath := jsTrim (step.inputData.getD "")
        if filePath = "" then .error "No file path provided for upload"
        else br.actUpload loc filePath
  else if step.action = "fill" then
    match el with
    | none => .error "No target element for fill"
    | some e =>
      match locatorFor e with
      | .error m => .error m
      | .ok loc => br.actFill loc (step.inputData.getD "")
  else if step.action = "click" then
    match el with
    | none => .error "No target element for click"
    | some e =>
      match locatorFor e with
      | .error m => .error m
      | .ok loc => br.actClick loc
  else if step.action = "select" then
    match el with
    | none => .error "No target element for select"
    | some e =>
      match locatorFor e with
      | .error m => .error m
      | .ok loc => doSelect br loc step.inputData
  else if step.action = "assert-text" then
    let expected := jsTrim (step.expected.getD "")
    if expected = "" then .ok ()
    else br.actWaitText expected
  else if step.action = "assert-url" then
    let expected := jsTrim (step.expected.getD "")
    if startsWithB expected "contains:" then
      let needle := dropS expected 9
      if includesB u needle then .ok ()
      else .error ("URL does not contain " ++ needle ++ ": " ++ u)
    else if startsWithB expected "not:" then
      let nv := dropS expected 4
      if u = nv then .error ("URL should have changed from " ++ nv) else .ok ()
    else if expected ≠ "" then
      if u ≠ expected then .error ("URL mismatch. Expected " ++ expected ++ ", got " ++ u)
      else .ok ()
    else .ok ()
  else if step.action = "assert-visible" then
    match el with
    | none => .error "No target element for assert-visible"
    | some e =>
      match locatorFor e with
      | .error m => .error m
      | .ok loc => br.actWaitVisible loc
  else if step.action = "assert-hidden" then
    match el with
    | none => .error "No target element for assert-hidden"
    | some e =>
      match locatorFor e with
      | .error m => .error m
      | .ok loc => br.actWaitHidden loc
  else if step.action = "assert-checked" then
    match el with
    | none => .error "No target element for assert-checked"
    | some e =>
      match locatorFor e with
      | .error m => .error m
      | .ok loc =>
        match br.actIsChecked loc with
        | some true => .ok ()
        | _ => .error "Element is not checked"
  else .ok ()

/-- The action names with an implemented switch arm; anything else hits
the deliberate no-op default branch. -/
def implementedActions : List String :=
  ["upload", "fill", "click", "select", "assert-text", "assert-url",
   "assert-visible", "assert-hidden", "assert-checked"]

/-- The runner's step loop. brs i is the browser state observed by step i
(the environment chooses how clicks and navigations evolve it). A passing
step records passed; a failing one records failed and, for a non-negative
test, stops the loop. -/
def runSteps (brs : Nat → Browser) (model : PageModel) (negative : Bool) :
    List TestStep → Nat → List StepResult
  | [], _ => []
  | s :: rest, i =>
    match performStep (brs i) s model with
    | .ok _ => ⟨i, "passed", none⟩ :: runSteps brs model negative rest (i + 1)
    | .error msg =>
      if negative then ⟨i, "failed", some msg⟩ :: runSteps brs model negative rest (i + 1)
      else [⟨i, "failed", some msg⟩]

/-- runTest: run the steps, then aggregate the overall status. -/
def runTest (brs : Nat → Browser) (test : TestSpec) (model : PageModel) : RunResult :=
  let stepResults := runSteps brs model test.negative test.steps 0
  let status :=
    if stepResults.any (fun r => r.status = "failed") then
      (if test.negative then "partial" else "failed")
    else "passed"
  ⟨test.id, status, stepResults⟩


/-! ### Heuristic test synthesizer (the generator package, generateTests) -/

/-- Requirement entity; only its id is consumed (requirementRefs). -/
structure RequirementEntity where
  id : String
  deriving DecidableEq

/-- Regex /next|continue|login|submit|go|start|dashboard/i. -/
def navRe (s : String) : Bool :=
  anySub s ["next", "continue", "login", "submit", "go", "start", "dashboard"]

/-- Regex /submit|login|sign in/i (a literal space in the last word). -/
def submitTextRe (s : String) : Bool := anySub s ["submit", "login", "sign in"]

/-- Rule 1 candidate filter: every anchor, plus buttons whose text matches
the navigation-verb regex. -/
def navCandidates (page : PageModel) : List PageElement :=
  page.elements.filter (fun e => e.tag = "a" || (e.tag = "button" && navRe (e.text.getD "")))

/-- Rule 1: one click-then-assert-url-changed test per candidate, capped
at five. Test ids are assigned afterwards by generateTests. -/
def navTests (page : PageModel) (reqIds : List String) (prio : String) : List TestSpec :=
  ((navCandidates page).take 5).map (fun link =>
    { id := ""
      name := "Navigate via " ++ link.tag ++ " (" ++
        orS (orS (link.text.getD "") (attrD link "href")) link.id ++ ")"
      requirementRefs := reqIds
      pageModelId := page.id
      priority := prio
      tags := ["heuristic", "nav"]
      steps :=
        [ { description := "Click " ++ orS (link.text.getD "") link.id,
            action := "click", targetElementId := some link.id },
          { description := "URL should change", action := "assert-url",
            expected := some ("not:" ++ page.url) } ] })

/-- The form-control elements of a page (input/select/textarea). -/
def controlElements (page : PageModel) : List PageElement :=
  page.elements.filter (fun e => ["input", "select", "textarea"].contains e.tag)

/-- The submit-control predicate used by both the happy-path and the
negative-path find calls. -/
def isSubmitLike (e : PageElement) : Bool :=
  e.tag = "button" ||
  (e.tag = "input" && jsLower (attrD e "type") = "submit") ||
  (jsLower (attrD e "type") = "submit") ||
  ((e.text.getD "") ≠ "" && submitTextRe (e.text.getD ""))

/-- Id of the first submit-like element, if any. -/
def submitBtnId (page : PageModel) : Option String :=
  (page.elements.find? isSubmitLike).map (fun e => e.id)

/-- containerFormId of the first element carrying the submit button's id. -/
def submitFormId (page : PageModel) : Option String :=
  match submitBtnId page with
  | none => none
  | some sid => (page.elements.find? (fun e => e.id = sid)).bind (fun e => e.containerFormId)

/-- Controls restricted to the submit button's enclosing form when that
form id is truthy. -/
def controlsInForm (page : PageModel) : List PageElement :=
  match submitFormId page with
  | some fid =>
    if fid = "" then controlElements page
    else (controlElements page).filter (fun c => c.containerFormId = some fid)
  | none => controlElements page

/-- The allowed input types of pickRelevantControlsNearSubmit. -/
def allowedTypes : List String :=
  ["text", "email", "password", "search", "tel", "url", "number", ""]

/-- The type/tag filter of pickRelevantControlsNearSubmit. -/
def relevantFilter (controls : List PageElement) : List PageElement :=
  controls.filter (fun c =>
    let t := jsLower (c.inferredType.getD "")
    c.tag = "select" || c.tag = "textarea" || (c.tag = "input" && allowedTypes.contains t))

/-- The idxMap lookup: Map.set overwrites, so the last occurrence of an id
wins. -/
def idxGet (page : PageModel) (id : String) : Option Nat :=
  ((page.elements.enum).reverse.find? (fun p => p.2.id = id)).map (fun p => p.1)

/-- Semantic tie-break: username/email-like 0, password-like 1, others 2;
regexes are applied to lowercased name-plus-text. -/
def semanticScore (f : PageElement) : Nat :=
  let s := jsLower (attrD f "name") ++ " " ++ jsLower (f.text.getD "")
  if anySub s ["user", "email", "mail"] then 0
  else if anySub s ["pass", "pwd"] then 1
  else 2

/-- The source score is distance + semantic * 0.1 with distance a natural
number and semantic in 0..2; it is represented here scaled by 10
(10 * distance + semantic), which preserves the comparator's order and
ties exactly while staying in Nat. -/
def scoreOf (page : PageModel) (submitIdx : Nat) (f : PageElement) : Nat :=
  let i := (idxGet page f.id).getD 0
  let distance : Nat := max i submitIdx - min i submitIdx
  10 * distance + semanticScore f

/-- Stable insertion of a later element after every earlier element whose
score is less than or equal (JS Array.prototype.sort is stable). -/
def insertByScore (score : PageElement → Nat) (x : PageElement) :
    List PageElement → List PageElement
  | [] => [x]
  | y :: ys => if score y ≤ score x then y :: insertByScore score x ys else x :: y :: ys

/-- Stable ascending sort by score. -/
def sortByScore (score : PageElement → Nat) (l : List PageElement) : List PageElement :=
  l.foldl (fun acc x => insertByScore score x acc) []

/-- pickRelevantControlsNearSubmit: filter, then (when a truthy submit id
exists) rank by distance-plus-semantic score; keep the top three. -/
def relevantFields (page : PageModel) : List PageElement :=
  let filtered := relevantFilter (controlsInForm page)
  match truthyOptS (submitBtnId page) with
  | none => filtered.take 3
  | some sid =>
    let submitIdx := (idxGet page sid).getD 0
    (sortByScore (scoreOf page submitIdx) filtered).take 3

/-- dummyValueFor: the type-to-dummy-value switch. -/
def dummyValueFor : Option String → String
  | some "email" => "user@example.com"
  | some "password" => "P@ssw0rd!"
  | some "search" => "test"
  | some "select" => "1"
  | _ => "value"

/-- Happy-path fill/select steps over the ranked fields. -/
def happySteps (page : PageModel) : List TestStep :=
  (relevantFields page).map (fun f =>
    { description := "Enter value for " ++ orS (orS (attrD f "name") (f.text.getD "")) f.id
      action := if f.tag = "select" then "select" else "fill"
      targetElementId := some f.id
      inputData := some (dummyValueFor f.inferredType) })

/-- The happy-path submit step; the target is omitted when the submit id
is falsy. -/
def happySubmitStep (page : PageModel) : TestStep :=
  { description := "Submit form (heuristic: first button)"
    action := "click"
    targetElementId := truthyOptS (submitBtnId page) }

/-- The happy-path form test. -/
def happyFormTest (page : PageModel) (reqIds : List String) (prio : String) : TestSpec :=
  { id := ""
    name := "Form submission happy path (" ++ orS (page.title.getD "") page.url ++ ")"
    requirementRefs := reqIds
    pageModelId := page.id
    steps := happySteps page ++ [happySubmitStep page]
    negative := false
    priority := prio
    tags := ["heuristic", "form"] }

/-- The required-looking field: first ranked field with a required
attribute, else the first ranked field. -/
def requiredField (page : PageModel) : Option PageElement :=
  match (relevantFields page).find? (fun f => (attrOpt f "required").isSome) with
  | some f => some f
  | none => (relevantFields page).head?

/-- One negative-path step for field f: blank when f is the required
field, else the type-appropriate dummy value. -/
def negStepFor (req : PageElement) (f : PageElement) : TestStep :=
  { description := "Enter value for " ++ orS (attrD f "name") f.id
    action := if f.tag = "select" then "select" else "fill"
    targetElementId := some f.id
    inputData := some (if f.id = req.id then "" else dummyValueFor f.inferredType) }

/-- The negative-path submit step (it repeats the submit-control find). -/
def negSubmitStep (page : PageModel) : TestStep :=
  { description := "Submit form"
    action := "click"
    targetElementId := truthyOptS ((page.elements.find? isSubmitLike).map (fun e => e.id))
    expected := some "Validation error displayed" }

/-- The negative form test, emitted only when a required-looking field
exists (relevant nonempty). -/
def negativeFormTest (page : PageModel) (reqIds : List String) (prio : String) :
    Option TestSpec :=
  match requiredField page with
  | none => none
  | some req =>
    some
      { id := ""
        name := "Form missing required field (" ++ orS (attrD req "name") req.id ++ ")"
        requirementRefs := reqIds
        pageModelId := page.id
        steps := (relevantFields page).map (negStepFor req) ++ [negSubmitStep page]
        negative := true
        priority := prio
        tags := ["heuristic", "form", "negative"] }

/-- Rule 2: happy path plus optional negative path when any control
elements exist. -/
def formTests (page : PageModel) (reqIds : List String) (prio : String) : List TestSpec :=
  if controlElements page = [] then []
  else
    happyFormTest page reqIds prio ::
      (match negativeFormTest page reqIds prio with
       | some t => [t]
       | none => [])

/-- Rule 3: checkbox toggle tests, capped at three. -/
def checkboxTests (page : PageModel) (reqIds : List String) : List TestSpec :=
  ((page.elements.filter (fun e =>
      e.tag = "input" && jsLower (attrD e "type") = "checkbox")).take 3).map (fun cb =>
    { id := ""
      name := "Toggle checkbox (" ++ orS (attrD cb "name") cb.id ++ ")"
      requirementRefs := reqIds
      pageModelId := page.id
      priority := "low"
      tags := ["heuristic", "checkbox"]
      steps :=
        [ { description := "Click checkbox", action := "click", targetElementId := some cb.id },
          { description := "Checkbox should be visible", action := "assert-visible",
            targetElementId := some cb.id } ] })

/-- Rule 4: modal open/close when both an opener and a closer match. -/
def modalTests (page : PageModel) (reqIds : List String) : List TestSpec :=
  let opener := page.elements.find? (fun e =>
    (e.tag = "button" || e.tag = "a") && anySub (e.text.getD "") ["open", "modal", "dialog"])
  let closer := page.elements.find? (fun e =>
    (e.tag = "button" || e.tag = "a") && anySub (e.text.getD "") ["close", "dismiss"])
  match opener, closer with
  | some op, some cl =>
    [ { id := ""
        name := "Open and close modal (heuristic)"
        requirementRefs := reqIds
        pageModelId := page.id
        priority := "low"
        tags := ["heuristic", "modal"]
        steps :=
          [ { description := "Open modal via " ++ orS (op.text.getD "") op.id,
              action := "click", targetElementId := some op.id },
            { description := "Modal text should appear", action := "assert-text",
              expected := some "close" },
            { description := "Close modal", action := "click", targetElementId := some cl.id } ] } ]
  | _, _ => []

/-- generateTests: the four rules in push order; the k-th pushed test
receives the k-th fresh id (nanoid abstracted as the supply ids). -/
def generateTests (ids : Nat → String) (page : PageModel) (reqs : List RequirementEntity)
    (prio : String := "medium") : List TestSpec :=
  let reqIds := reqs.map (fun r => r.id)
  ((navTests page reqIds prio ++ formTests page reqIds prio ++
    checkboxTests page reqIds ++ modalTests page reqIds).enum).map
    (fun p => { p.2 with id := ids p.1 })

deriving instance DecidableEq for Except

/-! ### Orchestrator generate phase (apps/web/app/api/internal/orchestrator.ts) -/

/-- Whether a test participates in navigation deduplication: tagged both
heuristic and nav. -/
def navTagged (t : TestSpec) : Bool :=
  t.tags.contains "heuristic" && t.tags.contains "nav"

/-- The dedup signature: the first step's targetElementId when truthy,
else the test name. -/
def navSig (t : TestSpec) : String :=
  match t.steps with
  | [] => t.name
  | s :: _ =>
    match s.targetElementId with
    | some tid => if tid = "" then t.name else tid
    | none => t.name

/-- The dedup loop with its seen-signature set: a tagged test with a truthy
signature already seen is skipped; everything else is pushed (a tagged test
with a falsy signature bypasses the set entirely). -/
def dedupNavAux (seen : List String) : List TestSpec → List TestSpec
  | [] => []
  | t :: rest =>
    if navTagged t then
      let sig := navSig t
      if sig ≠ "" then
        if seen.contains sig then dedupNavAux seen rest
        else t :: dedupNavAux (sig :: seen) rest
      else t :: dedupNavAux seen rest
    else t :: dedupNavAux seen rest

/-- Deduplicate navigation tests across pages (lines 122-139). -/
def dedupNavTests (tests : List TestSpec) : List TestSpec :=
  dedupNavAux [] tests

/-- assets.find(a => a.kind === k) || assets[0]. -/
def assetOfKind (assets : List Asset) (k : String) : Option Asset :=
  match assets.find? (fun a => a.kind = k) with
  | some a => some a
  | none => assets.head?

/-- The accept-part loop body of selectAssetFor; a part that matches a
media family returns (possibly undefined), the slash and dot checks run in
sequence, and an unmatched part falls through to the next one. -/
def selectLoop (assets : List Asset) : List String → Option Asset
  | [] => none
  | p :: rest =>
    if p = "image/*" then assetOfKind assets "image"
    else if p = "video/*" then assetOfKind assets "video"
    else if p = "application/pdf" then assetOfKind assets "pdf"
    else
      match (if includesB p "/" then
               let ty := ((p.splitOn "/").headD "")
               if ty = "image" then some (assetOfKind assets "image")
               else if ty = "video" then some (assetOfKind assets "video")
               else none
             else none : Option (Option Asset)) with
      | some r => r
      | none =>
        if startsWithB p "." then
          let ext := jsLower (dropS p 1)
          if ["png", "jpg", "jpeg", "gif", "webp"].contains ext then assetOfKind assets "image"
          else if ext = "pdf" then assetOfKind assets "pdf"
          else if ["mp4", "webm", "mov"].contains ext then assetOfKind assets "video"
          else selectLoop assets rest
        else selectLoop assets rest

/-- selectAssetFor: falsy accept takes the first asset; otherwise the
comma-split parts are tried in order with a first-asset fallback. -/
def selectAssetFor (accept : String) (assets : List Asset) : Option Asset :=
  if accept = "" then assets.head?
  else
    match selectLoop assets ((accept.splitOn ",").map jsTrim) with
    | some a => some a
    | none => assets.head?

/-- nearestSubmit: first button, submit-typed input, or
submit/upload/save/send-texted element. -/
def nearestSubmit (page : PageModel) : Option String :=
  (page.elements.find? (fun e =>
    e.tag = "button" ||
    (e.tag = "input" && jsLower (attrD e "type") = "submit") ||
    ((e.text.getD "") ≠ "" && anySub (e.text.getD "") ["submit", "upload", "save", "send"]))).map
    (fun e => e.id)

/-- The closing step of every synthetic upload test. -/
def uploadAssertStep : TestStep :=
  { description := "Verify page responded (URL may change)"
    action := "assert-url"
    expected := some "" }

/-- Synthetic upload tests (lines 186-211): one per file input with a
matching asset, attaching the asset, optionally submitting, then the
empty assert-url step. -/
def uploadTestsFor (assets : List Asset) (pages : List PageModel) : List TestSpec :=
  if assets.isEmpty then []
  else
    pages.flatMap (fun page =>
      (page.elements.filter (fun e =>
          e.tag = "input" && jsLower (attrD e "type") = "file")).filterMap (fun input =>
        let accept := jsLower (attrD input "accept")
        match selectAssetFor accept assets with
        | none => none
        | some pick =>
          some
            { id := "upload-" ++ page.id ++ "-" ++ input.id
              name := "File upload (" ++ orS (attrD input "name") input.id ++ ")"
              requirementRefs := []
              pageModelId := page.id
              priority := "medium"
              tags := ["synthetic", "upload", "form"]
              steps :=
                [ { description := "Attach file", action := "upload",
                    targetElementId := some input.id, inputData := some pick.path } ] ++
                (match truthyOptS (nearestSubmit page) with
                 | some sid =>
                   [ { description := "Submit form", action := "click",
                       targetElementId := some sid } ]
                 | none => []) ++
                [uploadAssertStep] }))

/-- One position of the regex sign\s*in: the four letters of sign, any run
of whitespace, then in. -/
def signWsInAt (l : List Char) : Bool :=
  begB "sign".data l && begB "in".data ((l.drop 4).dropWhile Char.isWhitespace)

/-- Regex sign\s*in tested anywhere in an already-lowercased string. -/
def signWsInAny : List Char → Bool
  | [] => false
  | c :: t => signWsInAt (c :: t) || signWsInAny t

/-- Regex /login|sign\s*in/i. -/
def loginTitleRe (s : String) : Bool :=
  hasSubB "login".data (jsLower s).data || signWsInAny (jsLower s).data

/-- Regex /submit|login|sign\s*in/i. -/
def submitSignRe (s : String) : Bool :=
  hasSubB "submit".data (jsLower s).data || loginTitleRe s

/-- The login-page finder of the credentials branch (lines 216-220). -/
def loginPageOf (pages : List PageModel) : Option PageModel :=
  pages.find? (fun p =>
    loginTitleRe (p.title.getD "") ||
    anySub p.url ["login", "signin"] ||
    p.elements.any (fun e => e.tag = "input" && attrD e "type" = "password"))

/-- createLoginTest (lines 337-392): requires a username-like and a
password-typed input; the submit step is added only when a submit control
is found. -/
def createLoginTest (page : PageModel) (creds : Credentials) : Option TestSpec :=
  let usernameElement := page.elements.find? (fun e =>
    e.tag = "input" &&
    (["text", "email"].contains (attrD e "type") ||
     anySub (attrD e "name") ["user", "email", "login"] ||
     anySub (attrD e "id") ["user", "email", "login"]))
  let passwordElement := page.elements.find? (fun e =>
    e.tag = "input" && attrD e "type" = "password")
  let submitElement := page.elements.find? (fun e =>
    (e.tag = "button" && submitSignRe (e.text.getD "")) ||
    (e.tag = "input" && attrD e "type" = "submit"))
  match usernameElement, passwordElement with
  | some ue, some pe =>
    some
      { id := "login-synthetic-" ++ page.id
        name := "Login (successful authentication)"
        requirementRefs := []
        pageModelId := page.id
        priority := "high"
        tags := ["synthetic", "login", "auth"]
        steps :=
          [ { description := "Enter username", action := "fill",
              targetElementId := some ue.id, inputData := some creds.username },
            { description := "Enter password", action := "fill",
              targetElementId := some pe.id, inputData := some creds.password } ] ++
          (match submitElement with
           | some se =>
             [ { description := "Submit login form", action := "click",
                 targetElementId := some se.id } ]
           | none => []) ++
          [ { description := "Verify successful login (URL change expected)",
              action := "assert-url", expected := some ("not:" ++ page.url) } ] }
  | _, _ => none

/-- The generate phase before the zero-test smoke fallback: heuristic
tests per page (with the orchestrator's empty requirements), appended AI
tests, navigation dedup, synthetic upload tests, then the synthetic login
test unshifted to the front. ids gives each page its fresh-id supply. -/
def preSmokeTests (ids : Nat → Nat → String) (pages : List PageModel)
    (aiTests : List TestSpec) (assets : List Asset) (credentials : Option Credentials) :
    List TestSpec :=
  let heur := (pages.enum).flatMap (fun p => generateTests (ids p.1) p.2 [])
  let deduped := dedupNavTests (heur ++ aiTests)
  let withUploads := deduped ++ uploadTestsFor assets pages
  match credentials with
  | none => withUploads
  | some creds =>
    match loginPageOf pages with
    | none => withUploads
    | some lp =>
      match createLoginTest lp creds with
      | none => withUploads
      | some lt => lt :: withUploads

/-- The synthetic smoke test for the first page (lines 231-248). -/
def smokeTestFor (fp : PageModel) : TestSpec :=
  { id := "smoke-" ++ fp.id
    name := "Smoke: load main page"
    requirementRefs := []
    pageModelId := fp.id
    priority := "low"
    tags := ["synthetic", "smoke"]
    steps := [{ description := "Assert page URL", action := "assert-url", expected := some fp.url }] }

/-- The full generate phase: the smoke fallback fires only when zero tests
exist and a first page is available. -/
def buildTests (ids : Nat → Nat → String) (pages : List PageModel)
    (aiTests : List TestSpec) (assets : List Asset) (credentials : Option Credentials) :
    List TestSpec :=
  let tests := preSmokeTests ids pages aiTests assets credentials
  if tests.isEmpty then
    match pages.head? with
    | some fp => [smokeTestFor fp]
    | none => []
  else tests

/-- The execute-phase terminal status (lines 289-301): a run with zero
generated tests throws No tests generated and is caught as error, any
other run that finishes execution completes (individual test failures are
counted, never fatal). -/
def executeStatus (tests : List TestSpec) : String :=
  if tests.length = 0 then "error" else "completed"

/-! ### Crawler fallback policy (packages/crawler/src/index.ts, crawl) -/

/-- The warning pushed onto the static fallback result. -/
def fallbackMsg (e : String) : String :=
  "Dynamic crawl failed (" ++ e ++ "); fell back to static."

/-- crawl: when dynamic crawling is requested and not disabled by the
environment, try the dynamic strategy; on its failure run the static
strategy on the same start URL and return its result with the fallback
warning appended (a static failure propagates). Otherwise crawl
statically. dyn and stat are the two strategies' outcomes for the start
URL. -/
def crawlModel (dynamicRequested disabled : Bool)
    (dyn stat : Except String CrawlResult) : Except String CrawlResult :=
  if dynamicRequested && !disabled then
    match dyn with
    | .ok r => .ok r
    | .error e =>
      match stat with
      | .ok f => .ok { f with warnings := f.warnings ++ [fallbackMsg e] }
      | .error e2 => .error e2
  else stat

/-- crawlDynamic's BFS while loop. nav folds goto, readiness wait, element
collection and link normalization (URL resolution, origin filtering) for
one URL into a single oracle returning the built page and the candidate
next URLs; a nav failure is the per-URL catch (lines 243-245) that pushes
a Failed-to-navigate warning and continues, never throws. fuel bounds the
iterations, since the source loop's termination is extrinsic; every
finite run is reproduced with enough fuel. -/
def crawlDynLoop (nav : String → Except String (PageModel × List String))
    (maxPages depth : Nat) :
    Nat → List (String × Nat) → List String → List PageModel → List String → CrawlResult
  | 0, _, _, pages, warnings => ⟨pages, warnings⟩
  | _ + 1, [], _, pages, warnings => ⟨pages, warnings⟩
  | fuel + 1, (url, d) :: rest, visited, pages, warnings =>
    if maxPages ≤ pages.length then ⟨pages, warnings⟩
    else if visited.contains url then
      crawlDynLoop nav maxPages depth fuel rest visited pages warnings
    else
      match nav url with
      | .error msg =>
        crawlDynLoop nav maxPages depth fuel rest (url :: visited) pages
          (warnings ++ ["Failed to navigate " ++ url ++ ": " ++ msg])
      | .ok (page, links) =>
        let queue2 :=
          if d < depth then
            links.foldl (fun q u =>
              if (url :: visited).contains u || q.any (fun p => p.1 = u) then q
              else q ++ [(u, d + 1)]) rest
          else rest
        crawlDynLoop nav maxPages depth fuel queue2 (url :: visited) (pages ++ [page]) warnings

/-- crawlDynamic: start-URL parsing, the playwright import and the
browser launch may throw (folded into boot); once the loop is entered,
per-URL navigation failures are caught as warnings, so the function
returns a successful CrawlResult even when every navigation fails. -/
def crawlDynamicModel (boot : Except String Unit)
    (nav : String → Except String (PageModel × List String)) (startUrl : String)
    (maxPages depth fuel : Nat) : Except String CrawlResult :=
  match boot with
  | .error e => .error e
  | .ok _ => .ok (crawlDynLoop nav maxPages depth fuel [(startUrl, 0)] [] [] [])

/-! ### Concrete fixtures used by witnesses and counterexamples -/

/-- A fresh-id supply standing in for nanoid. -/
def ids0 : Nat → String := fun n => "id" ++ toString n

/-- A per-page fresh-id supply for the orchestrator embedding. -/
def ids2 : Nat → Nat → String := fun p n => "p" ++ toString p ++ "-" ++ toString n

/-- Default TestStep for list indexing in closed statements. -/
def dStep : TestStep := { description := "", action := "" }

/-- Default TestSpec for list indexing in closed statements. -/
def dTest : TestSpec := { id := "", name := "", pageModelId := "", priority := "" }

/-- A browser whose effectful calls all succeed. -/
def br0 : Browser := { url := "https://x/a" }

/-- A constant browser-state history. -/
def brs0 : Nat → Browser := fun _ => br0

/-- A page with no interactive elements. -/
def pageEmpty : PageModel := { id := "p0", url := "https://x/a" }

/-- A step whose action has no switch arm (hover is unimplemented). -/
def noopStep : TestStep := { description := "noop", action := "hover" }

/-- A click step with no target element. -/
def badClick : TestStep := { description := "click nothing", action := "click" }

/-- An assert-url step in not: form. -/
def stepNotA : TestStep :=
  { description := "url changed", action := "assert-url", expected := some "not:https://x/a" }

/-- An assert-url step with an absent expected value. -/
def stepUrlNoExp : TestStep := { description := "url", action := "assert-url" }

/-- A test consisting only of an unimplemented action. -/
def tUnknownOnly : TestSpec :=
  { id := "tu", name := "tu", pageModelId := "p0", priority := "low", steps := [noopStep] }

/-- A negative test with one failing step. -/
def tNegFail : TestSpec :=
  { id := "tn", name := "tn", pageModelId := "p0", priority := "low", negative := true
    steps := [badClick] }

/-- A non-negative test whose second step is the first failure. -/
def t2spec : TestSpec :=
  { id := "t2", name := "two", pageModelId := "p0", priority := "low"
    steps := [noopStep, badClick] }

/-- An anchor whose text matches no navigation verb. -/
def anchorZ : PageElement := { id := "a1", tag := "a", text := some "zzz" }

/-- A page containing only that anchor. -/
def pageC5 : PageModel := { id := "p5", url := "https://x/a", elements := [anchorZ] }

/-- A select control with no required attribute. -/
def selC6 : PageElement := { id := "e1", tag := "select", inferredType := some "select" }

/-- A text input named user. -/
def inpC6 : PageElement :=
  { id := "e2"
    tag := "input"
    attributes := [("name", "user"), ("type", "text")]
    inferredType := some "text" }

/-- A Submit button. -/
def btnC6 : PageElement := { id := "e3", tag := "button", text := some "Submit" }

/-- A form page whose ranked fields are the input then the select. -/
def pageC6 : PageModel := { id := "p6", url := "https://x/f", elements := [selC6, inpC6, btnC6] }

/-- The negative form test synthesized for pageC6. -/
def tC6 : TestSpec := (negativeFormTest pageC6 [] "medium").getD dTest

/-- A heuristic nav test with no first-step target and an empty name. -/
def tDup1 : TestSpec :=
  { id := "x1", name := "", pageModelId := "p", priority := "low"
    tags := ["heuristic", "nav"], steps := [{ description := "s", action := "click" }] }

/-- A second such test, identical apart from its id. -/
def tDup2 : TestSpec :=
  { id := "x2", name := "", pageModelId := "p", priority := "low"
    tags := ["heuristic", "nav"], steps := [{ description := "s", action := "click" }] }

/-- A heuristic nav test whose first step targets sig1. -/
def tSig1a : TestSpec :=
  { id := "n1", name := "n1", pageModelId := "p", priority := "low"
    tags := ["heuristic", "nav"]
    steps := [{ description := "c", action := "click", targetElementId := some "sig1" }] }

/-- A later heuristic nav test with the same first-step target. -/
def tSig1b : TestSpec :=
  { id := "n2", name := "n2", pageModelId := "p", priority := "low"
    tags := ["heuristic", "nav"]
    steps := [{ description := "c", action := "click", targetElementId := some "sig1" }] }

/-- A form-tagged test that dedup must never remove. -/
def tPlain : TestSpec :=
  { id := "q", name := "q", pageModelId := "p", priority := "low", tags := ["heuristic", "form"] }

/-- A static crawl result carrying one prior warning. -/
def crA : CrawlResult := { pages := [], warnings := ["w0"] }

/-- A navigation oracle for which every goto fails. -/
def navFailO : String → Except String (PageModel × List String) :=
  fun _ => .error "net::ERR_CONNECTION_REFUSED"

/-- The static crawl outcome that would have been available for the same
start URL. -/
def statGood : CrawlResult := { pages := [pageEmpty], warnings := [] }

/-- A file input element. -/
def fileInput : PageElement := { id := "f1", tag := "input", attributes := [("type", "file")] }

/-- A page containing only that file input. -/
def pageUp : PageModel := { id := "pu", url := "https://x/u", elements := [fileInput] }

/-- One uploaded image asset. -/
def assets0 : List Asset :=
  [{ id := "a", name := "pic", mime := "image/png", kind := "image", path := "up/pic.png" }]

/-- The synthetic upload test generated for pageUp. -/
def tUp : TestSpec := (uploadTestsFor assets0 [pageUp]).headD dTest

/-! ### Helper lemmas -/

/-- The step loop records failed for a step exactly when performStep errors. -/
theorem runTest_stepResults_def (brs : Nat → Browser) (test : TestSpec) (model : PageModel) :
    (runTest brs test model).stepResults = runSteps brs model test.negative test.steps 0 := rfl

theorem runTest_status_def (brs : Nat → Browser) (test : TestSpec) (model : PageModel) :
    (runTest brs test model).status =
      (if (runSteps brs model test.negative test.steps 0).any (fun r => r.status = "failed") then
        (if test.negative then "partial" else "failed")
      else "passed") := rfl

/-- C1: runTest's aggregated status is passed when no recorded step failed,
failed when some step failed and the test is not negative, and partial when
some step failed and the test is negative. -/
theorem runTest_status_aggregation (brs : Nat → Browser) (test : TestSpec) (model : PageModel) :
    ((∀ r ∈ (runTest brs test model).stepResults, r.status ≠ "failed") →
        (runTest brs test model).status = "passed")
    ∧ ((∃ r ∈ (runTest brs test model).stepResults, r.status = "failed") →
        (test.negative = false → (runTest brs test model).status = "failed")
        ∧ (test.negative = true → (runTest brs test model).status = "partial")) := by
  constructor
  · intro h
    rw [runTest_status_def, if_neg]
    simp only [List.any_eq_true, decide_eq_true_eq, not_exists, not_and]
    intro r hr
    exact h r (by rw [runTest_stepResults_def]; exact hr)
  · intro h
    have hany : (runSteps brs model test.negative test.steps 0).any
        (fun r => r.status = "failed") = true := by
      simp only [List.any_eq_true, decide_eq_true_eq]
      obtain ⟨r, hr, hs⟩ := h
      exact ⟨r, by rw [runTest_stepResults_def] at hr; exact hr, hs⟩
    constructor
    · intro hn
      rw [runTest_status_def, hany, if_pos rfl, hn]
      rfl
    · intro hn
      rw [runTest_status_def, hany, if_pos rfl, hn]
      rfl

/-- C1 witness at a concrete negative test with a failing step. -/
theorem runTest_status_aggregation_witness :
    (runTest brs0 tNegFail pageEmpty).status = "partial" :=
  ((runTest_status_aggregation brs0 tNegFail pageEmpty).2 (by decide)).2 rfl

/-- Loop lemma for a non-negative test: passing steps accumulate passed
results until the first error stops the loop. -/
theorem runSteps_prefix_fail (brs : Nat → Browser) (model : PageModel)
    (post : List TestStep) (s : TestStep) (msg : String) :
    ∀ (pre : List TestStep) (i : Nat),
      (∀ j (h : j < pre.length), performStep (brs (i + j)) (pre.get ⟨j, h⟩) model = .ok ()) →
      performStep (brs (i + pre.length)) s model = .error msg →
      runSteps brs model false (pre ++ s :: post) i =
        (List.range pre.length).map (fun j => ⟨i + j, "passed", none⟩) ++
          [⟨i + pre.length, "failed", some msg⟩] := by
  intro pre
  induction pre with
  | nil =>
    intro i hpre hfail
    simp only [List.length_nil, Nat.add_zero] at hfail
    simp [runSteps, hfail]
  | cons p pre ih =>
    intro i hpre hfail
    have h0 : performStep (brs i) p model = .ok () := by
      have := hpre 0 (by simp)
      simpa using this
    have h1 : ∀ j (h : j < pre.length),
        performStep (brs (i + 1 + j)) (pre.get ⟨j, h⟩) model = .ok () := by
      intro j hj
      have := hpre (j + 1) (by simpa using Nat.succ_lt_succ hj)
      simpa [Nat.add_assoc, Nat.add_comm 1 j] using this
    have h2 : performStep (brs (i + 1 + pre.length)) s model = .error msg := by
      have : i + (p :: pre).length = i + 1 + pre.length := by
        simp [Nat.add_assoc, Nat.add_comm 1 pre.length]
      rw [this] at hfail
      exact hfail
    simp only [List.cons_append, runSteps, h0, List.append_eq]
    rw [ih (i + 1) h1 h2]
    have hadd : ∀ j : Nat, i + 1 + j = i + (j + 1) := fun j => by omega
    simp only [List.length_cons, List.range_succ_eq_map, List.map_cons, List.map_map,
      Function.comp, Nat.add_zero, List.cons_append, hadd]
    rfl

/-- C2: for a non-negative test whose first failing step is step N (here
pre.length + 1 in 1-based terms), runTest records exactly N StepResults:
the first N-1 passed, the N-th failed, and nothing (not even skipped) for
later steps. -/
theorem runTest_stops_at_first_failure (brs : Nat → Browser) (model : PageModel)
    (test : TestSpec) (pre post : List TestStep) (s : TestStep) (msg : String)
    (hneg : test.negative = false)
    (hsteps : test.steps = pre ++ s :: post)
    (hpre : ∀ j (h : j < pre.length), performStep (brs j) (pre.get ⟨j, h⟩) model = .ok ())
    (hfail : performStep (brs pre.length) s model = .error msg) :
    (runTest brs test model).stepResults =
      (List.range pre.length).map (fun j => ⟨j, "passed", none⟩) ++
        [⟨pre.length, "failed", some msg⟩]
    ∧ (runTest brs test model).stepResults.length = pre.length + 1 := by
  have hmain : (runTest brs test model).stepResults =
      (List.range pre.length).map (fun j => (⟨j, "passed", none⟩ : StepResult)) ++
        [⟨pre.length, "failed", some msg⟩] := by
    rw [runTest_stepResults_def, hneg, hsteps,
      runSteps_prefix_fail brs model post s msg pre 0 (by simpa using hpre) (by simpa using hfail)]
    simp
  exact ⟨hmain, by rw [hmain]; simp⟩

/-- C2 witness: a concrete two-step test failing at step 2 records exactly
one passed and one failed result. -/
theorem runTest_stops_at_first_failure_witness :
    (runTest brs0 t2spec pageEmpty).stepResults =
      (List.range 1).map (fun j => ⟨j, "passed", none⟩) ++
        [⟨1, "failed", some "No target element for click"⟩] :=
  (runTest_stops_at_first_failure brs0 pageEmpty t2spec [noopStep] [] badClick
    "No target element for click" rfl rfl
    (by
      intro j h
      have hj : j = 0 := by simpa using h
      subst hj
      rfl) (by rfl)).1

/-- When no model element carries the step's target id, resolution yields
no element. -/
theorem resolveTarget_eq_none (step : TestStep) (model : PageModel)
    (h : ∀ tid, step.targetElementId = some tid → ∀ e ∈ model.elements, e.id ≠ tid) :
    resolveTarget step model = none := by
  unfold resolveTarget
  cases hs : step.targetElementId with
  | none => rfl
  | some tid =>
    by_cases ht : tid = ""
    · simp [ht]
    · simp only [ht, if_false]
      rw [List.find?_eq_none]
      intro e he
      simpa using h tid hs e he

/-- A fill, click, select or upload step whose target does not resolve
fails with the explicit no-target error. -/
theorem performStep_missing_target (br : Browser) (step : TestStep) (model : PageModel)
    (ha : step.action ∈ (["fill", "click", "select", "upload"] : List String))
    (h : ∀ tid, step.targetElementId = some tid → ∀ e ∈ model.elements, e.id ≠ tid) :
    performStep br step model = .error ("No target element for " ++ step.action) := by
  have hel : resolveTarget step model = none := resolveTarget_eq_none step model h
  simp only [List.mem_cons, List.mem_singleton, List.not_mem_nil, or_false] at ha
  rcases ha with ha | ha | ha | ha <;> simp [performStep, ha, hel]

/-- A step whose action has no switch arm is the deliberate no-op. -/
theorem performStep_unknown_action (br : Browser) (step : TestStep) (model : PageModel)
    (h : step.action ∉ implementedActions) :
    performStep br step model = .ok () := by
  simp only [implementedActions, List.mem_cons, List.mem_singleton, List.not_mem_nil,
    or_false, not_or] at h
  obtain ⟨h1, h2, h3, h4, h5, h6, h7, h8, h9⟩ := h
  simp [performStep, h1, h2, h3, h4, h5, h6, h7, h8, h9]

/-- A run whose steps are all unimplemented actions records only passed
results. -/
theorem runSteps_unknown_all_passed (brs : Nat → Browser) (model : PageModel) (neg : Bool) :
    ∀ (steps : List TestStep) (i : Nat),
      (∀ s ∈ steps, s.action ∉ implementedActions) →
      runSteps brs model neg steps i =
        (List.range steps.length).map (fun j => ⟨i + j, "passed", none⟩) := by
  intro steps
  induction steps with
  | nil => intro i _; rfl
  | cons p rest ih =>
    intro i h
    have h0 : performStep (brs i) p model = .ok () :=
      performStep_unknown_action (brs i) p model (h p (by simp))
    have hadd : ∀ j : Nat, i + 1 + j = i + (j + 1) := fun j => by omega
    simp only [runSteps, h0, List.append_eq]
    rw [ih (i + 1) (fun s hs => h s (by simp [hs]))]
    simp only [List.length_cons, List.range_succ_eq_map, List.map_cons, List.map_map,
      Function.comp, Nat.add_zero, hadd]
    rfl

/-- C3: an implemented non-assert action with an absent or unmatched
target always fails with an explicit error; an action name outside the
implemented set is a deliberate no-op and its step is recorded as passed. -/
theorem step_missing_target_and_unknown_action :
    (∀ (br : Browser) (step : TestStep) (model : PageModel),
        step.action ∈ (["fill", "click", "select", "upload"] : List String) →
        (∀ tid, step.targetElementId = some tid → ∀ e ∈ model.elements, e.id ≠ tid) →
        performStep br step model = .error ("No target element for " ++ step.action))
    ∧ (∀ (br : Browser) (step : TestStep) (model : PageModel),
        step.action ∉ implementedActions → performStep br step model = .ok ())
    ∧ (∀ (brs : Nat → Browser) (model : PageModel) (test : TestSpec),
        (∀ s ∈ test.steps, s.action ∉ implementedActions) →
        (runTest brs test model).status = "passed"
        ∧ ∀ r ∈ (runTest brs test model).stepResults, r.status = "passed") := by
  refine ⟨performStep_missing_target, performStep_unknown_action, ?_⟩
  intro brs model test h
  have hsteps : (runTest brs test model).stepResults =
      (List.range test.steps.length).map (fun j => ⟨0 + j, "passed", none⟩) := by
    rw [runTest_stepResults_def]
    exact runSteps_unknown_all_passed brs model test.negative test.steps 0 h
  have hall : ∀ r ∈ (runTest brs test model).stepResults, r.status = "passed" := by
    rw [hsteps]
    intro r hr
    obtain ⟨j, _, rfl⟩ := List.mem_map.mp hr
    rfl
  refine ⟨?_, hall⟩
  rw [runTest_status_def, if_neg]
  simp only [List.any_eq_true, decide_eq_true_eq, not_exists, not_and]
  intro r hr
  have := hall r (by rw [runTest_stepResults_def]; exact hr)
  simp [this]

/-- C3 witness: a concrete target-less click fails explicitly while a
concrete unimplemented hover action passes and is recorded as passed. -/
theorem step_missing_target_and_unknown_action_witness :
    performStep br0 badClick pageEmpty = .error ("No target element for " ++ "click")
    ∧ performStep br0 noopStep pageEmpty = .ok ()
    ∧ (runTest brs0 tUnknownOnly pageEmpty).status = "passed" :=
  ⟨step_missing_target_and_unknown_action.1 br0 badClick pageEmpty (by decide)
      (fun tid h => nomatch h),
   step_missing_target_and_unknown_action.2.1 br0 noopStep pageEmpty (by decide),
   (step_missing_target_and_unknown_action.2.2 brs0 pageEmpty tUnknownOnly (by decide)).1⟩

/-- Appending strings concatenates their character data. -/
theorem strData_append (s t : String) : (s ++ t).data = s.data ++ t.data := by
  cases s
  cases t
  rfl

/-- A list is a leading segment of itself followed by anything. -/
theorem begB_self_append (p r : List Char) : begB p (p ++ r) = true := by
  induction p with
  | nil => rfl
  | cons a as ih => simp [begB, ih]

/-- A string starts with the prefix it was built from. -/
theorem startsWithB_self (p r : String) : startsWithB (p ++ r) p = true := by
  unfold startsWithB
  rw [strData_append]
  exact begB_self_append p.data r.data

/-- A not: expected value never matches the contains: test. -/
theorem startsWithB_not_ne_contains (v : String) :
    startsWithB ("not:" ++ v) "contains:" = false := by
  cases v
  rfl

/-- Dropping the not: marker recovers the payload. -/
theorem dropS_not (v : String) : dropS ("not:" ++ v) 4 = v := by
  cases v
  rfl

/-- Dropping the contains: marker recovers the payload. -/
theorem dropS_contains (v : String) : dropS ("contains:" ++ v) 9 = v := by
  cases v
  rfl

/-- C4: assert-url semantics. For the not: form the step fails with the
descriptive message exactly when the resolved URL equals the given value;
for the contains: form it fails exactly when the URL lacks the substring;
for a non-empty plain expected value it fails exactly when the URL
differs. -/
theorem assertUrl_semantics :
    (∀ (br : Browser) (step : TestStep) (model : PageModel) (v : String),
        step.action = "assert-url" →
        jsTrim (step.expected.getD "") = "not:" ++ v →
        (resolvedUrl br step model = v →
          performStep br step model = .error ("URL should have changed from " ++ v))
        ∧ (resolvedUrl br step model ≠ v → performStep br step model = .ok ()))
    ∧ (∀ (br : Browser) (step : TestStep) (model : PageModel) (sub : String),
        step.action = "assert-url" →
        jsTrim (step.expected.getD "") = "contains:" ++ sub →
        (includesB (resolvedUrl br step model) sub = false →
          performStep br step model =
            .error ("URL does not contain " ++ sub ++ ": " ++ resolvedUrl br step model))
        ∧ (includesB (resolvedUrl br step model) sub = true →
          performStep br step model = .ok ()))
    ∧ (∀ (br : Browser) (step : TestStep) (model : PageModel) (e : String),
        step.action = "assert-url" →
        jsTrim (step.expected.getD "") = e →
        e ≠ "" →
        startsWithB e "contains:" = false →
        startsWithB e "not:" = false →
        (resolvedUrl br step model ≠ e →
          performStep br step model =
            .error ("URL mismatch. Expected " ++ e ++ ", got " ++ resolvedUrl br step model))
        ∧ (resolvedUrl br step model = e → performStep br step model = .ok ())) := by
  refine ⟨?_, ?_, ?_⟩
  · intro br step model v ha he
    have hc : startsWithB (jsTrim (step.expected.getD "")) "contains:" = false := by
      rw [he]; exact startsWithB_not_ne_contains v
    have hn : startsWithB (jsTrim (step.expected.getD "")) "not:" = true := by
      rw [he]; exact startsWithB_self "not:" v
    have hdrop : dropS (jsTrim (step.expected.getD "")) 4 = v := by
      rw [he]; exact dropS_not v
    constructor
    · intro hu
      simp [performStep, ha, hc, hn, hdrop, hu]
    · intro hu
      simp [performStep, ha, hc, hn, hdrop, hu]
  · intro br step model sub ha he
    have hc : startsWithB (jsTrim (step.expected.getD "")) "contains:" = true := by
      rw [he]; exact startsWithB_self "contains:" sub
    have hdrop : dropS (jsTrim (step.expected.getD "")) 9 = sub := by
      rw [he]; exact dropS_contains sub
    constructor
    · intro hu
      simp [performStep, ha, hc, hdrop, hu]
    · intro hu
      simp [performStep, ha, hc, hdrop, hu]
  · intro br step model e ha he hne hc hn
    constructor
    · intro hu
      simp [performStep, ha, he, hc, hn, hne, hu]
    · intro hu
      simp [performStep, ha, he, hc, hn, hne, hu]

/-- C4 witness: with the browser at https x a, the concrete not: step
fails with the descriptive message. -/
theorem assertUrl_semantics_witness :
    performStep br0 stepNotA pageEmpty =
      .error ("URL should have changed from " ++ "https://x/a") :=
  (assertUrl_semantics.1 br0 stepNotA pageEmpty "https://x/a" rfl (by decide)).1 (by decide)

/-- C5 counterexample: an anchor whose text matches no navigation verb
still yields a heuristic nav test (the rule filters anchors by tag alone),
refuting the claim that only verb-matching elements produce tests. -/
theorem navRule_counterexample :
    navRe "zzz" = false
    ∧ anchorZ.tag = "a" ∧ anchorZ.text = some "zzz"
    ∧ pageC5.elements = [anchorZ]
    ∧ (generateTests ids0 pageC5 []).length = 1
    ∧ ((generateTests ids0 pageC5 []).headD dTest).tags = ["heuristic", "nav"]
    ∧ ((generateTests ids0 pageC5 []).headD dTest).steps =
        [{ description := "Click zzz", action := "click", targetElementId := some "a1" },
         { description := "URL should change", action := "assert-url",
           expected := some "not:https://x/a" }] := by
  decide

/-- C5 amended: the navigation rule produces at most five tests per page,
each from an anchor (any text) or a verb-matching button, and each test is
a click on that element followed by assert-url not the page URL. -/
theorem navTests_rule_spec (page : PageModel) (reqIds : List String) (prio : String) :
    (navTests page reqIds prio).length ≤ 5
    ∧ ∀ t ∈ navTests page reqIds prio,
        t.tags = ["heuristic", "nav"]
        ∧ ∃ e ∈ page.elements,
            (e.tag = "a" ∨ (e.tag = "button" ∧ navRe (e.text.getD "") = true))
            ∧ t.steps =
                [{ description := "Click " ++ orS (e.text.getD "") e.id, action := "click",
                   targetElementId := some e.id },
                 { description := "URL should change", action := "assert-url",
                   expected := some ("not:" ++ page.url) }] := by
  constructor
  · simp only [navTests, List.length_map, List.length_take]
    omega
  · intro t ht
    obtain ⟨link, hmem, rfl⟩ := List.mem_map.mp ht
    have hlink : link ∈ navCandidates page := List.mem_of_mem_take hmem
    have hcand := List.mem_filter.mp hlink
    refine ⟨rfl, link, hcand.1, ?_, rfl⟩
    have := hcand.2
    simp only [Bool.or_eq_true, Bool.and_eq_true, decide_eq_true_eq] at this
    exact this

/-- C5 amended witness: the concrete single-anchor page yields a test
whose element is the anchor. -/
theorem navTests_rule_spec_witness :
    ∃ e ∈ pageC5.elements,
      (e.tag = "a" ∨ (e.tag = "button" ∧ navRe (e.text.getD "") = true))
      ∧ ((navTests pageC5 [] "medium").headD dTest).steps =
          [{ description := "Click " ++ orS (e.text.getD "") e.id, action := "click",
             targetElementId := some e.id },
           { description := "URL should change", action := "assert-url",
             expected := some ("not:" ++ pageC5.url) }] :=
  ((navTests_rule_spec pageC5 [] "medium").2 ((navTests pageC5 [] "medium").headD dTest)
    (by decide)).2

/-- Unfolding: an untagged test is pushed. -/
theorem dedupNavAux_cons_untag (seen : List String) (t : TestSpec) (rest : List TestSpec)
    (h : navTagged t = false) :
    dedupNavAux seen (t :: rest) = t :: dedupNavAux seen rest := by
  simp [dedupNavAux, h]

/-- Unfolding: a tagged test with empty signature is pushed. -/
theorem dedupNavAux_cons_empty (seen : List String) (t : TestSpec) (rest : List TestSpec)
    (h : navTagged t = true) (h2 : navSig t = "") :
    dedupNavAux seen (t :: rest) = t :: dedupNavAux seen rest := by
  simp [dedupNavAux, h, h2]

/-- Unfolding: a tagged test whose signature was already seen is skipped. -/
theorem dedupNavAux_cons_seen (seen : List String) (t : TestSpec) (rest : List TestSpec)
    (h : navTagged t = true) (h2 : navSig t ≠ "") (h3 : navSig t ∈ seen) :
    dedupNavAux seen (t :: rest) = dedupNavAux seen rest := by
  simp [dedupNavAux, h, h2, h3]

/-- Unfolding: a tagged test with a new signature is pushed and its
signature recorded. -/
theorem dedupNavAux_cons_new (seen : List String) (t : TestSpec) (rest : List TestSpec)
    (h : navTagged t = true) (h2 : navSig t ≠ "") (h3 : navSig t ∉ seen) :
    dedupNavAux seen (t :: rest) = t :: dedupNavAux (navSig t :: seen) rest := by
  simp [dedupNavAux, h, h2, h3]

/-- Tests lacking the heuristic or nav tag pass through dedup untouched,
for any seen-set. -/
theorem dedupNavAux_untagged (tests : List TestSpec) :
    ∀ seen : List String,
      (dedupNavAux seen tests).filter (fun t => !navTagged t) =
        tests.filter (fun t => !navTagged t) := by
  induction tests with
  | nil => intro _; rfl
  | cons t rest ih =>
    intro seen
    cases h : navTagged t with
    | false =>
      rw [dedupNavAux_cons_untag seen t rest h, List.filter_cons, List.filter_cons, ih seen]
    | true =>
      by_cases h2 : navSig t = ""
      · rw [dedupNavAux_cons_empty seen t rest h h2, List.filter_cons, List.filter_cons, ih seen]
      · by_cases h3 : navSig t ∈ seen
        · rw [dedupNavAux_cons_seen seen t rest h h2 h3, List.filter_cons, ih seen]
          simp [h]
        · rw [dedupNavAux_cons_new seen t rest h h2 h3, List.filter_cons, List.filter_cons,
            ih (navSig t :: seen)]

/-- Tagged tests with an empty signature also pass through dedup
untouched, for any seen-set. -/
theorem dedupNavAux_empty_sig (tests : List TestSpec) :
    ∀ seen : List String,
      (dedupNavAux seen tests).filter (fun t => navTagged t && navSig t == "") =
        tests.filter (fun t => navTagged t && navSig t == "") := by
  induction tests with
  | nil => intro _; rfl
  | cons t rest ih =>
    intro seen
    cases h : navTagged t with
    | false =>
      rw [dedupNavAux_cons_untag seen t rest h, List.filter_cons, List.filter_cons, ih seen]
    | true =>
      by_cases h2 : navSig t = ""
      · rw [dedupNavAux_cons_empty seen t rest h h2, List.filter_cons, List.filter_cons, ih seen]
      · by_cases h3 : navSig t ∈ seen
        · rw [dedupNavAux_cons_seen seen t rest h h2 h3, List.filter_cons, ih seen]
          simp [h, h2]
        · rw [dedupNavAux_cons_new seen t rest h h2 h3, List.filter_cons, List.filter_cons,
            ih (navSig t :: seen)]

/-- For a non-empty signature, dedup keeps the first tagged test bearing
it when the signature is unseen, none otherwise. -/
theorem dedupNavAux_sig (s : String) (hs : s ≠ "") (tests : List TestSpec) :
    ∀ seen : List String,
      (dedupNavAux seen tests).filter (fun t => navTagged t && navSig t == s) =
        (if s ∈ seen then []
         else (tests.filter (fun t => navTagged t && navSig t == s)).take 1) := by
  induction tests with
  | nil => intro seen; by_cases h : s ∈ seen <;> simp [dedupNavAux, h]
  | cons t rest ih =>
    intro seen
    cases h : navTagged t with
    | false =>
      have hts : (navTagged t && (navSig t == s)) = false := by simp [h]
      rw [dedupNavAux_cons_untag seen t rest h, List.filter_cons, List.filter_cons, ih seen]
      simp [hts]
    | true =>
      by_cases h2 : navSig t = ""
      · have hb : ((navSig t) == s) = false := by
          rw [h2]
          exact beq_eq_false_iff_ne.mpr (fun hx => hs hx.symm)
        have hts : (navTagged t && (navSig t == s)) = false := by simp [hb]
        rw [dedupNavAux_cons_empty seen t rest h h2, List.filter_cons, List.filter_cons, ih seen]
        simp [hts]
      · by_cases h3 : navSig t = s
        · have hts : (navTagged t && (navSig t == s)) = true := by simp [h, h3]
          by_cases h4 : s ∈ seen
          · have h4x : navSig t ∈ seen := by rw [h3]; exact h4
            rw [dedupNavAux_cons_seen seen t rest h h2 h4x, ih seen, List.filter_cons]
            simp [h4]
          · have h4x : navSig t ∉ seen := by rw [h3]; exact h4
            rw [dedupNavAux_cons_new seen t rest h h2 h4x, List.filter_cons, List.filter_cons,
              ih (navSig t :: seen)]
            have hcontains : s ∈ navSig t :: seen := by rw [h3]; exact List.mem_cons_self s seen
            rw [if_pos hcontains, if_neg h4]
            simp [hts]
        · have hts : (navTagged t && (navSig t == s)) = false := by simp [h3]
          by_cases h3b : navSig t ∈ seen
          · rw [dedupNavAux_cons_seen seen t rest h h2 h3b, ih seen, List.filter_cons]
            simp [hts]
          · rw [dedupNavAux_cons_new seen t rest h h2 h3b, List.filter_cons, List.filter_cons,
              ih (navSig t :: seen)]
            have hcontains : (s ∈ navSig t :: seen) ↔ (s ∈ seen) := by
              simp [List.mem_cons]
              intro hx
              exact absurd hx.symm h3
            by_cases h5 : s ∈ seen
            · rw [if_pos (hcontains.mpr h5), if_pos h5]
              simp [hts]
            · rw [if_neg (fun hx => h5 (hcontains.mp hx)), if_neg h5]
              simp [hts]

/-- C7 counterexample: two heuristic nav tests with no first-step target
and equal (empty) names share the claim signature, yet dedup retains both,
refuting that every later duplicate is dropped. -/
theorem dedupNav_counterexample :
    navTagged tDup1 = true ∧ navTagged tDup2 = true
    ∧ (tDup1.steps.headD dStep).targetElementId = none
    ∧ (tDup2.steps.headD dStep).targetElementId = none
    ∧ tDup1.name = tDup2.name
    ∧ navSig tDup1 = navSig tDup2
    ∧ tDup1 ≠ tDup2
    ∧ dedupNavTests [tDup1, tDup2] = [tDup1, tDup2] := by
  decide

/-- C7 amended: among heuristic plus nav tagged tests whose signature
(first-step target, else test name) is non-empty, exactly the first-seen
test per signature is retained; tagged tests with an empty signature and
tests lacking either tag are never removed. -/
theorem dedupNav_spec (tests : List TestSpec) :
    ((dedupNavTests tests).filter (fun t => !navTagged t) =
        tests.filter (fun t => !navTagged t))
    ∧ (∀ s : String, s ≠ "" →
        (dedupNavTests tests).filter (fun t => navTagged t && navSig t == s) =
          (tests.filter (fun t => navTagged t && navSig t == s)).take 1)
    ∧ ((dedupNavTests tests).filter (fun t => navTagged t && navSig t == "") =
        tests.filter (fun t => navTagged t && navSig t == "")) := by
  refine ⟨dedupNavAux_untagged tests [], ?_, dedupNavAux_empty_sig tests []⟩
  intro s hs
  have := dedupNavAux_sig s hs tests []
  simpa using this

/-- C7 amended witness: with two nav tests sharing target sig1 and one
form test in between, dedup keeps the first nav test and the form test. -/
theorem dedupNav_spec_witness :
    (dedupNavTests [tSig1a, tPlain, tSig1b]).filter
        (fun t => navTagged t && navSig t == "sig1") =
      ([tSig1a, tPlain, tSig1b].filter (fun t => navTagged t && navSig t == "sig1")).take 1 :=
  (dedupNav_spec [tSig1a, tPlain, tSig1b]).2.1 "sig1" (by decide)

/-- Inserting by score is a permutation of consing. -/
theorem insertByScore_perm (score : PageElement → Nat) (x : PageElement) :
    ∀ l : List PageElement, (insertByScore score x l).Perm (x :: l) := by
  intro l
  induction l with
  | nil => exact List.Perm.refl _
  | cons y ys ih =>
    by_cases h : score y ≤ score x
    · simp only [insertByScore, if_pos h]
      exact (ih.cons y).trans (List.Perm.swap x y ys)
    · simp only [insertByScore, if_neg h]
      exact List.Perm.refl _

/-- The stable sort permutes its input. -/
theorem sortByScore_perm (score : PageElement → Nat) (l : List PageElement) :
    (sortByScore score l).Perm l := by
  have haux : ∀ (l acc : List PageElement),
      (l.foldl (fun acc x => insertByScore score x acc) acc).Perm (acc ++ l) := by
    intro l
    induction l with
    | nil => intro acc; simp
    | cons x xs ih =>
      intro acc
      have h1 := ih (insertByScore score x acc)
      have h2 : (insertByScore score x acc ++ xs).Perm ((x :: acc) ++ xs) :=
        (insertByScore_perm score x acc).append_right xs
      have h3 : ((x :: acc) ++ xs).Perm (acc ++ x :: xs) := by
        simpa using (@List.perm_middle _ x acc xs).symm
      simpa using (h1.trans h2).trans h3
  simpa using haux l []

/-- The ranked fields are a permutation of a sublist of the page elements,
so distinct element ids stay distinct among them. -/
theorem relevantFields_nodup (page : PageModel)
    (h : (page.elements.map (fun e => e.id)).Nodup) :
    ((relevantFields page).map (fun e => e.id)).Nodup := by
  have hcf : List.Sublist (controlsInForm page) page.elements := by
    unfold controlsInForm controlElements
    cases hs : submitFormId page with
    | none => exact List.filter_sublist _
    | some fid =>
      by_cases hf : fid = ""
      · simp only [hf, if_pos rfl]
        exact List.filter_sublist _
      · simp only [if_neg hf]
        exact (List.filter_sublist _).trans (List.filter_sublist _)
  have hfs : List.Sublist (relevantFilter (controlsInForm page)) page.elements :=
    (List.filter_sublist _).trans hcf
  have hnodupf : ((relevantFilter (controlsInForm page)).map (fun e => e.id)).Nodup :=
    h.sublist (hfs.map _)
  unfold relevantFields
  cases ht : truthyOptS (submitBtnId page) with
  | none =>
    exact hnodupf.sublist ((List.take_sublist _ _).map _)
  | some sid =>
    have hperm := sortByScore_perm
      (scoreOf page ((idxGet page sid).getD 0)) (relevantFilter (controlsInForm page))
    have hnodups :
        ((sortByScore (scoreOf page ((idxGet page sid).getD 0))
          (relevantFilter (controlsInForm page))).map (fun e => e.id)).Nodup :=
      ((hperm.map _).nodup_iff).mpr hnodupf
    exact hnodups.sublist ((List.take_sublist _ _).map _)

/-- The required-looking field is one of the ranked fields. -/
theorem requiredField_mem (page : PageModel) (req : PageElement)
    (h : requiredField page = some req) : req ∈ relevantFields page := by
  unfold requiredField at h
  cases hf : (relevantFields page).find? (fun f => (attrOpt f "required").isSome) with
  | some f =>
    rw [hf] at h
    cases h
    exact List.mem_of_find?_eq_some hf
  | none =>
    rw [hf] at h
    cases hl : relevantFields page with
    | nil => rw [hl] at h; cases h
    | cons a l =>
      rw [hl] at h
      cases h
      exact List.mem_cons_self req l

/-- No dummy value is the empty string. -/
theorem dummyValueFor_ne_empty (t : Option String) : dummyValueFor t ≠ "" := by
  unfold dummyValueFor
  split <;> decide

/-- A negative-path step is blank exactly for the required field's id. -/
theorem negStep_blank_iff (req f : PageElement) :
    (negStepFor req f).inputData = some "" ↔ f.id = req.id := by
  by_cases h : f.id = req.id
  · simp [negStepFor, h]
  · simp [negStepFor, h, dummyValueFor_ne_empty]

/-- With distinct ids, the negative-path fill steps contain exactly one
blank value. -/
theorem negSteps_one_blank (req : PageElement) :
    ∀ l : List PageElement, ((l.map (fun e => e.id)).Nodup) → req ∈ l →
      ((l.map (negStepFor req)).filter (fun s => s.inputData = some "")).length = 1 := by
  intro l
  induction l with
  | nil => intro _ hm; cases hm
  | cons f rest ih =>
    intro hnodup hmem
    have hn := List.nodup_cons.mp hnodup
    by_cases hf : f.id = req.id
    · have hrest : ((rest.map (negStepFor req)).filter
          (fun s => s.inputData = some "")).length = 0 := by
        rw [List.length_eq_zero, List.filter_eq_nil_iff]
        intro s hsm
        obtain ⟨g, hg, rfl⟩ := List.mem_map.mp hsm
        intro hblank
        have hgid : g.id = req.id := (negStep_blank_iff req g).mp (by simpa using hblank)
        have hgidmem : g.id ∈ rest.map (fun e => e.id) := List.mem_map_of_mem _ hg
        rw [hgid, ← hf] at hgidmem
        exact hn.1 hgidmem
      rw [List.map_cons, List.filter_cons]
      have : ((negStepFor req f).inputData = some "") := (negStep_blank_iff req f).mpr hf
      simp only [this]
      simp [hrest]
    · have hreq : req ∈ rest := by
        cases List.mem_cons.mp hmem with
        | inl he => exact absurd (by rw [he]) hf
        | inr hr => exact hr
      rw [List.map_cons, List.filter_cons]
      have hnb : ¬((negStepFor req f).inputData = some "") := fun hx =>
        hf ((negStep_blank_iff req f).mp hx)
      simp only [hnb]
      simpa using ih hn.2 hreq

/-- C6 counterexample: in pageC6 the ranked fields are the input then the
select, the required-looking field is the input, and the emitted negative
test gives the select field the dummy value 1, not the claimed default
value. -/
theorem negativeForm_counterexample :
    (relevantFields pageC6).map (fun e => e.id) = ["e2", "e1"]
    ∧ requiredField pageC6 = some inpC6
    ∧ selC6.inferredType = some "select"
    ∧ (attrOpt selC6 "required").isSome = false
    ∧ (negativeFormTest pageC6 [] "medium").map
        (fun t => (t.negative, t.tags, t.steps.map (fun s => s.inputData))) =
      some (true, ["heuristic", "form", "negative"], [some "", some "1", none])
    ∧ dummyValueFor (some "select") = "1"
    ∧ ("1" : String) ≠ "value" := by
  decide

/-- C6 amended: an emitted negative form test is flagged negative, tagged
heuristic form negative, blanks exactly the required-looking field (first
required-attributed ranked field, else the first ranked field), gives
every other ranked field its dummy value (email, password, search, select
to 1, else value), and ends with a submit step expecting a validation
error. -/
theorem negativeFormTest_spec (page : PageModel) (reqIds : List String) (prio : String)
    (t : TestSpec) (req : PageElement)
    (ht : negativeFormTest page reqIds prio = some t)
    (hreq : requiredField page = some req)
    (hnodup : (page.elements.map (fun e => e.id)).Nodup) :
    t.negative = true
    ∧ t.tags = ["heuristic", "form", "negative"]
    ∧ t.steps = (relevantFields page).map (negStepFor req) ++ [negSubmitStep page]
    ∧ (∀ f ∈ relevantFields page, f.id ≠ req.id →
        (negStepFor req f).inputData = some (dummyValueFor f.inferredType))
    ∧ (negStepFor req req).inputData = some ""
    ∧ (t.steps.filter (fun s => s.inputData = some "")).length = 1
    ∧ (negSubmitStep page).expected = some "Validation error displayed"
    ∧ dummyValueFor (some "email") = "user@example.com"
    ∧ dummyValueFor (some "password") = "P@ssw0rd!"
    ∧ dummyValueFor (some "search") = "test"
    ∧ dummyValueFor (some "select") = "1"
    ∧ (∀ ty : Option String,
        ty ∉ ([some "email", some "password", some "search", some "select"] :
          List (Option String)) → dummyValueFor ty = "value") := by
  have hts : t =
      { id := ""
        name := "Form missing required field (" ++ orS (attrD req "name") req.id ++ ")"
        requirementRefs := reqIds
        pageModelId := page.id
        steps := (relevantFields page).map (negStepFor req) ++ [negSubmitStep page]
        negative := true
        priority := prio
        tags := ["heuristic", "form", "negative"] } := by
    unfold negativeFormTest at ht
    rw [hreq] at ht
    exact (Option.some_inj.mp ht).symm
  have hsteps : t.steps = (relevantFields page).map (negStepFor req) ++ [negSubmitStep page] := by
    rw [hts]
  refine ⟨by rw [hts], by rw [hts], hsteps, ?_, ?_, ?_, rfl, rfl, rfl, rfl, rfl, ?_⟩
  · intro f _ hf
    simp [negStepFor, hf]
  · simp [negStepFor]
  · rw [hsteps, List.filter_append]
    have hsub : ([negSubmitStep page].filter (fun s => s.inputData = some "")) = [] := by
      simp [negSubmitStep]
    rw [hsub, List.append_nil]
    exact negSteps_one_blank req (relevantFields page) (relevantFields_nodup page hnodup)
      (requiredField_mem page req hreq)
  · intro ty hty
    unfold dummyValueFor
    split
    · simp at hty
    · simp at hty
    · simp at hty
    · simp at hty
    · rfl

/-- C6 amended witness at pageC6. -/
theorem negativeFormTest_spec_witness :
    tC6.negative = true
    ∧ tC6.tags = ["heuristic", "form", "negative"]
    ∧ (tC6.steps.filter (fun s => s.inputData = some "")).length = 1 := by
  have h := negativeFormTest_spec pageC6 [] "medium" tC6 inpC6 (by decide) (by decide) (by decide)
  exact ⟨h.1, h.2.1, h.2.2.2.2.2.1⟩

/-- With no pages and no AI tests the generate phase produces nothing. -/
theorem preSmokeTests_nil (ids : Nat → Nat → String) (assets : List Asset)
    (credentials : Option Credentials) :
    preSmokeTests ids [] [] assets credentials = [] := by
  have hu : uploadTestsFor assets [] = [] := by
    unfold uploadTestsFor
    split
    · rfl
    · rfl
  cases credentials <;> simp [preSmokeTests, dedupNavTests, dedupNavAux, loginPageOf, hu]

/-- C8: with at least one page and zero synthesized tests, exactly the
one smoke test asserting the first page's URL is appended and the run
executes with a test; with zero pages and zero AI tests nothing can be
synthesized and the run status is error. -/
theorem smoke_fallback_spec :
    (∀ (ids : Nat → Nat → String) (fp : PageModel) (rest : List PageModel)
        (aiTests : List TestSpec) (assets : List Asset) (credentials : Option Credentials),
        preSmokeTests ids (fp :: rest) aiTests assets credentials = [] →
        buildTests ids (fp :: rest) aiTests assets credentials = [smokeTestFor fp]
        ∧ (smokeTestFor fp).tags = ["synthetic", "smoke"]
        ∧ (smokeTestFor fp).steps =
            [{ description := "Assert page URL", action := "assert-url", expected := some fp.url }]
        ∧ executeStatus (buildTests ids (fp :: rest) aiTests assets credentials) = "completed")
    ∧ (∀ (ids : Nat → Nat → String) (assets : List Asset) (credentials : Option Credentials),
        buildTests ids [] [] assets credentials = []
        ∧ executeStatus (buildTests ids [] [] assets credentials) = "error") := by
  constructor
  · intro ids fp rest aiTests assets credentials h
    have hb : buildTests ids (fp :: rest) aiTests assets credentials = [smokeTestFor fp] := by
      unfold buildTests
      rw [h]
      rfl
    exact ⟨hb, rfl, rfl, by rw [hb]; rfl⟩
  · intro ids assets credentials
    have hb : buildTests ids [] [] assets credentials = [] := by
      unfold buildTests
      rw [preSmokeTests_nil ids assets credentials]
      rfl
    exact ⟨hb, by rw [hb]; rfl⟩

/-- C8 witness: a single element-free page synthesizes nothing, so the
run gets exactly the smoke test. -/
theorem smoke_fallback_spec_witness :
    buildTests ids2 [pageEmpty] [] [] none = [smokeTestFor pageEmpty]
    ∧ executeStatus (buildTests ids2 [pageEmpty] [] [] none) = "completed" :=
  ⟨(smoke_fallback_spec.1 ids2 pageEmpty [] [] [] none (by decide)).1,
   (smoke_fallback_spec.1 ids2 pageEmpty [] [] [] none (by decide)).2.2.2⟩

/-- A list occurs inside itself followed by anything. -/
theorem hasSubB_self_append (p r : List Char) : hasSubB p (p ++ r) = true := by
  cases p with
  | nil =>
    cases r with
    | nil => rfl
    | cons c t => simp [hasSubB, begB]
  | cons a as =>
    simp only [hasSubB, Bool.or_eq_true]
    exact Or.inl (begB_self_append (a :: as) r)

/-- Occurrence is preserved by extending on the left with one character. -/
theorem hasSubB_cons (p : List Char) (c : Char) (t : List Char)
    (h : hasSubB p t = true) : hasSubB p (c :: t) = true := by
  simp [hasSubB, h]

/-- Occurrence is preserved by extending on the left. -/
theorem hasSubB_append_left (p a s : List Char) (h : hasSubB p s = true) :
    hasSubB p (a ++ s) = true := by
  induction a with
  | nil => simpa using h
  | cons c cs ih => simpa using hasSubB_cons p c (cs ++ s) ih

/-- The fallback warning contains the dynamic failure message. -/
theorem fallbackMsg_includes_failure (e : String) : includesB (fallbackMsg e) e = true := by
  unfold fallbackMsg includesB
  rw [strData_append, strData_append, List.append_assoc]
  exact hasSubB_append_left _ _ _ (hasSubB_self_append _ _)

/-- The fallback warning says it fell back to static. -/
theorem fallbackMsg_includes_fallback (e : String) :
    includesB (fallbackMsg e) "fell back to static" = true := by
  unfold fallbackMsg includesB
  rw [strData_append, strData_append, List.append_assoc]
  refine hasSubB_append_left _ _ _ (hasSubB_append_left _ _ _ ?_)
  decide

/-- An empty queue ends the dynamic BFS loop with whatever was
accumulated, for any remaining fuel. -/
theorem crawlDynLoop_nil (nav : String → Except String (PageModel × List String))
    (maxPages depth fuel : Nat) (visited : List String) (pages : List PageModel)
    (warnings : List String) :
    crawlDynLoop nav maxPages depth fuel [] visited pages warnings = ⟨pages, warnings⟩ := by
  cases fuel <;> rfl

/-- A navigation failure on the start URL yields a successful empty
dynamic result carrying only the Failed-to-navigate warning. -/
theorem crawlDynamicModel_navfail (nav : String → Except String (PageModel × List String))
    (startUrl msg : String) (maxPages depth fuel : Nat)
    (hnav : nav startUrl = .error msg) (hm : 0 < maxPages) :
    crawlDynamicModel (.ok ()) nav startUrl maxPages depth (fuel + 1) =
      .ok { pages := [], warnings := ["Failed to navigate " ++ startUrl ++ ": " ++ msg] } := by
  have hle : ¬(maxPages ≤ ([] : List PageModel).length) := by simpa using Nat.not_le.mpr hm
  show Except.ok (crawlDynLoop nav maxPages depth (fuel + 1) [(startUrl, 0)] [] [] []) = _
  rw [crawlDynLoop, if_neg hle]
  simp only [List.contains_nil, Bool.false_eq_true, if_false, hnav]
  rw [crawlDynLoop_nil]
  rfl

/-- C9 counterexample: with dynamic crawling requested and enabled, a
total navigation failure is caught inside the dynamic crawl, which
returns a successful empty result; crawl hands that result through with
no static attempt, its warnings never mention a fallback, and the run can
then become error (zero pages, zero tests) without any static crawl —
refuting the claim for the navigation-failure trigger. -/
theorem crawl_navfail_counterexample :
    crawlDynamicModel (.ok ()) navFailO "https://x/a" 5 1 3 =
      .ok { pages := [],
            warnings := ["Failed to navigate https://x/a: net::ERR_CONNECTION_REFUSED"] }
    ∧ crawlModel true false (crawlDynamicModel (.ok ()) navFailO "https://x/a" 5 1 3)
        (.ok statGood) =
      .ok { pages := [],
            warnings := ["Failed to navigate https://x/a: net::ERR_CONNECTION_REFUSED"] }
    ∧ crawlModel true false (crawlDynamicModel (.ok ()) navFailO "https://x/a" 5 1 3)
        (.ok statGood) ≠
      .ok { statGood with
            warnings := statGood.warnings ++ [fallbackMsg "net::ERR_CONNECTION_REFUSED"] }
    ∧ (["Failed to navigate https://x/a: net::ERR_CONNECTION_REFUSED"].any
        (fun w => includesB w "fell back to static")) = false
    ∧ executeStatus (buildTests ids2 [] [] [] none) = "error" := by
  decide

/-- C9 amended: the automatic static fallback fires exactly when the
dynamic strategy throws (engine unavailable, unparsable start URL): crawl
then runs the static strategy on the same start URL and returns its
outcome, with a warning naming the dynamic failure and the fallback added
on static success, and only a static failure propagating. A navigation
failure inside the dynamic crawl is instead caught per-URL as a warning
on a successful (possibly empty) dynamic result, so no static crawl is
attempted in that case. -/
theorem crawl_fallback_amended_spec :
    (∀ (dyn stat : Except String CrawlResult) (e : String), dyn = .error e →
        (∀ f, stat = .ok f →
            crawlModel true false dyn stat =
              .ok { f with warnings := f.warnings ++ [fallbackMsg e] }
            ∧ includesB (fallbackMsg e) e = true
            ∧ includesB (fallbackMsg e) "fell back to static" = true)
        ∧ (∀ e2, stat = .error e2 → crawlModel true false dyn stat = .error e2))
    ∧ (∀ (nav : String → Except String (PageModel × List String)) (startUrl msg : String)
          (maxPages depth fuel : Nat),
        nav startUrl = .error msg → 0 < maxPages →
        crawlDynamicModel (.ok ()) nav startUrl maxPages depth (fuel + 1) =
          .ok { pages := [], warnings := ["Failed to navigate " ++ startUrl ++ ": " ++ msg] }
        ∧ ∀ stat, crawlModel true false
              (crawlDynamicModel (.ok ()) nav startUrl maxPages depth (fuel + 1)) stat =
            crawlDynamicModel (.ok ()) nav startUrl maxPages depth (fuel + 1)) := by
  constructor
  · intro dyn stat e hd
    constructor
    · intro f hf
      refine ⟨?_, fallbackMsg_includes_failure e, fallbackMsg_includes_fallback e⟩
      rw [hd, hf]
      rfl
    · intro e2 hf
      rw [hd, hf]
      rfl
  · intro nav startUrl msg maxPages depth fuel hnav hm
    have h1 := crawlDynamicModel_navfail nav startUrl msg maxPages depth fuel hnav hm
    refine ⟨h1, ?_⟩
    intro stat
    rw [h1]
    rfl

/-- C9 amended witness: a concrete engine throw falls back onto the
concrete static result with the fallback warning, while a concrete
navigation failure returns the ok empty dynamic result. -/
theorem crawl_fallback_amended_spec_witness :
    crawlModel true false (.error "boom") (.ok crA) =
      .ok { crA with warnings := crA.warnings ++ [fallbackMsg "boom"] }
    ∧ crawlDynamicModel (.ok ()) navFailO "https://x/a" 5 1 3 =
      .ok { pages := [],
            warnings := ["Failed to navigate https://x/a: net::ERR_CONNECTION_REFUSED"] } :=
  ⟨((crawl_fallback_amended_spec.1 (.error "boom") (.ok crA) "boom" rfl).1 crA rfl).1,
   (crawl_fallback_amended_spec.2 navFailO "https://x/a" "net::ERR_CONNECTION_REFUSED"
      5 1 2 rfl (by decide)).1⟩

/-- An assert-url step whose expected value trims to empty always
passes. -/
theorem performStep_assertUrl_empty (br : Browser) (step : TestStep) (model : PageModel)
    (ha : step.action = "assert-url") (he : jsTrim (step.expected.getD "") = "") :
    performStep br step model = .ok () := by
  have hc : startsWithB "" "contains:" = false := rfl
  have hn : startsWithB "" "not:" = false := rfl
  simp [performStep, ha, he, hc, hn]

/-- An assert-text step whose expected value trims to empty always
passes. -/
theorem performStep_assertText_empty (br : Browser) (step : TestStep) (model : PageModel)
    (ha : step.action = "assert-text") (he : jsTrim (step.expected.getD "") = "") :
    performStep br step model = .ok () := by
  simp [performStep, ha, he]

/-- The last element of an appended singleton. -/
theorem getLast?_append_singleton {α : Type} (l : List α) (a : α) :
    (l ++ [a]).getLast? = some a := by
  rw [← List.concat_eq_append]
  simp [List.getLast?_concat]

/-- Every synthetic upload test ends with the empty assert-url step. -/
theorem uploadTestsFor_last (assets : List Asset) (pages : List PageModel) (t : TestSpec)
    (ht : t ∈ uploadTestsFor assets pages) :
    t.steps.getLast? = some uploadAssertStep := by
  unfold uploadTestsFor at ht
  by_cases hne : assets.isEmpty
  · rw [if_pos hne] at ht
    cases ht
  · rw [if_neg hne] at ht
    obtain ⟨page, _, htp⟩ := List.mem_flatMap.mp ht
    obtain ⟨input, _, heq⟩ := List.mem_filterMap.mp htp
    cases hsel : selectAssetFor (jsLower (attrD input "accept")) assets with
    | none =>
      simp only [hsel] at heq
      exact Option.noConfusion heq
    | some pick =>
      simp only [hsel] at heq
      cases heq
      exact getLast?_append_singleton _ _

/-- C10: assert-url with an absent or empty expected value and assert-text
with a whitespace-only expected value always succeed, and every synthetic
upload test of the orchestrator relies on this by ending with an
assert-url step whose expected value is the empty string. -/
theorem emptyAssert_and_uploadTail_spec :
    (∀ (br : Browser) (step : TestStep) (model : PageModel),
        step.action = "assert-url" → jsTrim (step.expected.getD "") = "" →
        performStep br step model = .ok ())
    ∧ (∀ (br : Browser) (step : TestStep) (model : PageModel),
        step.action = "assert-text" → jsTrim (step.expected.getD "") = "" →
        performStep br step model = .ok ())
    ∧ (∀ (assets : List Asset) (pages : List PageModel) (t : TestSpec),
        t ∈ uploadTestsFor assets pages →
        t.steps.getLast? = some uploadAssertStep
        ∧ uploadAssertStep.action = "assert-url"
        ∧ uploadAssertStep.expected = some ""
        ∧ ∀ (br : Browser) (model : PageModel),
            performStep br uploadAssertStep model = .ok ()) := by
  refine ⟨performStep_assertUrl_empty, performStep_assertText_empty, ?_⟩
  intro assets pages t ht
  exact ⟨uploadTestsFor_last assets pages t ht, rfl, rfl,
    fun br model => performStep_assertUrl_empty br uploadAssertStep model rfl rfl⟩

/-- C10 witness: a concrete expected-less assert-url step passes, and the
concrete upload test for pageUp ends with the empty assert-url step. -/
theorem emptyAssert_and_uploadTail_spec_witness :
    performStep br0 stepUrlNoExp pageEmpty = .ok ()
    ∧ tUp.steps.getLast? = some uploadAssertStep :=
  ⟨emptyAssert_and_uploadTail_spec.1 br0 stepUrlNoExp pageEmpty rfl rfl,
   (emptyAssert_and_uploadTail_spec.2.2 assets0 [pageUp] tUp (by decide)).1⟩
